import Mathlib

/-
  Shallow embedding of src/main.py (azurepdf2png): a FastAPI service with one
  conversion endpoint.  The pipeline is download_pdf -> convert_pdf_to_images ->
  concurrent upload_image_to_azure_blob calls -> response shaping, all in
  src/main.py.

  Modelling conventions:
  * Machine-level byte buffers are `List Nat`; the code only ever takes their
    length or passes them opaquely to external libraries.
  * The aiohttp response is a `Response` record (status, optional Content-Type
    header, body).  Network-level failures of the GET itself are the
    `clientError` and `otherError` fetch outcomes.
  * fastapi.HTTPException subclasses Exception (via starlette), so a
    `raise HTTPException(...)` inside a `try` block whose handlers include
    `except Exception` is caught by that handler.  The embedding therefore
    splits each pipeline stage into a `*_try` function returning the outcome of
    the try block (with the raise sites tagged), and the stage function itself,
    which applies the except clauses exactly as the Python interpreter would.
  * PyMuPDF (fitz) is external: an opened document is a `PdfDoc` record
    (page_count plus an abstract total rasterization function `pix`, standing
    for load_page + get_pixmap + tobytes at the fixed DPI); `fitz.open` itself
    is abstracted as an `OpenOutcome`.  Azure SDK calls are abstracted as
    fields of `UploadEnv`.
  * asyncio.gather with default arguments returns the task results positionally
    (in task-list order) and propagates a raised exception; the embedding
    collects upload results in task order, taking the first error by index.
-/

/-- An HTTP error response as produced by FastAPI from an HTTPException:
status code plus the detail string (the response body is
`{"detail": <detail>}`). -/
structure HTTPErr where
  status_code : Nat
  detail : String

/-- `MAX_PDF_SIZE = 100 * 1024 * 1024` from src/main.py line 83 (the source
comment says 10 MB but the value is 100 MiB). -/
def MAX_PDF_SIZE : Nat := 100 * 1024 * 1024

/-- `MAX_PAGE_COUNT = 3000` from src/main.py line 99. -/
def MAX_PAGE_COUNT : Nat := 3000

/-- `DPI = 100` from src/main.py line 100 (fixed rasterization resolution;
absorbed into the abstract `PdfDoc.pix`). -/
def DPI : Nat := 100

/-- Python list/`str.startswith`-style check: `startsWithL p l` is true iff
`p` is an initial segment of `l`. -/
def startsWithL : List Char → List Char → Bool
  | [], _ => true
  | _ :: _, [] => false
  | a :: p, b :: l => a == b && startsWithL p l

/-- Python `in` on strings, over char lists: `hasSubL pat l` is true iff `pat`
occurs as a contiguous run inside `l` (true for the empty pattern). -/
def hasSubL (pat : List Char) : List Char → Bool
  | [] => startsWithL pat []
  | c :: rest => startsWithL pat (c :: rest) || hasSubL pat rest

/-- Python `pat in s` for strings. -/
def hasSub (pat s : String) : Bool := hasSubL pat.toList s.toList

/-- Python `str.lower()` (the code only feeds it ASCII media types, where
`Char.toLower` agrees with Python). -/
def lowerStr (s : String) : String := String.mk (s.toList.map Char.toLower)

/-- The aiohttp response observed by `download_pdf`: HTTP status, the
Content-Type header (`none` when absent, matching `headers.get` with a
default), and the fully read body. -/
structure Response where
  status : Nat
  contentType : Option String
  body : List Nat

/-- Outcome of the `session.get` + `response.read()` transfer: either a
complete response, or an `aiohttp.ClientError`, or some other exception from
the transport layer. -/
inductive FetchOutcome where
  | ok (r : Response)
  | clientError
  | otherError

/-- The three explicit `raise HTTPException(status_code=400, ...)` sites inside
the try block of `download_pdf` (src/main.py lines 74-85), tagged by which
check fired. -/
inductive DlRaise where
  | badStatus (status : Nat)
  | badContentType (content_type : String)
  | tooLarge

/-- How the try block of `download_pdf` can terminate abnormally. -/
inductive DownloadStop where
  | raised (r : DlRaise)
  | clientError
  | otherError

/-- The HTTPException object constructed at each raise site of
`download_pdf` (status code 400 and an f-string detail). -/
def dlExc : DlRaise → HTTPErr
  | .badStatus s => ⟨400, "Failed to download PDF. Status code: " ++ toString s⟩
  | .badContentType ct => ⟨400, "URL does not point to a PDF file. Content-Type: " ++ ct⟩
  | .tooLarge => ⟨400, "PDF file is too large."⟩

/-- The try block of `download_pdf` (src/main.py lines 67-86):
status != 200 check, then the case-insensitive substring test
`'pdf' not in content_type.lower()` with the header defaulted to the empty
string, then the post-read size check `len(pdf_bytes) > MAX_PDF_SIZE`. -/
def download_try (f : FetchOutcome) : Except DownloadStop (List Nat) :=
  match f with
  | .clientError => .error .clientError
  | .otherError => .error .otherError
  | .ok r =>
    if r.status ≠ 200 then
      .error (.raised (.badStatus r.status))
    else if hasSub "pdf" (lowerStr (r.contentType.getD "")) = false then
      .error (.raised (.badContentType (r.contentType.getD "")))
    else if r.body.length > MAX_PDF_SIZE then
      .error (.raised .tooLarge)
    else
      .ok r.body

/-- `download_pdf` (src/main.py lines 66-92) with its two except clauses.
fastapi.HTTPException is a subclass of Exception but not of
aiohttp.ClientError, so an HTTPException raised inside the try block is
caught by `except Exception` and replaced by a 500 response; only a transport
ClientError reaches the 400 client-error handler. -/
def download_pdf (f : FetchOutcome) : Except HTTPErr (List Nat) :=
  match download_try f with
  | .ok b => .ok b
  | .error (.raised _) => .error ⟨500, "Unexpected error occurred."⟩
  | .error .clientError => .error ⟨400, "Client error occurred while downloading PDF."⟩
  | .error .otherError => .error ⟨500, "Unexpected error occurred."⟩

/-- A document opened by fitz: its page count and the rasterization of each
page (load_page + get_pixmap(dpi=DPI) + tobytes("png"), abstracted as a total
function, i.e. per-page rasterization succeeds). -/
structure PdfDoc where
  page_count : Nat
  pix : Nat → List Nat

/-- Outcome of `fitz.open(stream=pdf_bytes, filetype="pdf")`: a parsed
document or a parsing exception. -/
inductive OpenOutcome where
  | ok (d : PdfDoc)
  | fail

/-- How the try block of `convert_pdf_to_images` can terminate abnormally:
the explicit page-count HTTPException raise, or an exception from fitz. -/
inductive RenderStop where
  | tooManyPages (page_count : Nat)
  | openError

/-- The HTTPException object constructed at the page-count raise site
(src/main.py lines 105-108): status 400 with the f-string detail. -/
def renderExc (page_count : Nat) : HTTPErr :=
  ⟨400, "PDF has too many pages (" ++ toString page_count ++
    "). Maximum allowed is " ++ toString MAX_PAGE_COUNT ++ "."⟩

/-- The try block of `convert_pdf_to_images` (src/main.py lines 96-115):
open the document, guard the page count before the loop, then
`for page_num in range(min(page_count, MAX_PAGE_COUNT))` append the
rasterization of each page in index order. -/
def convert_try (o : OpenOutcome) : Except RenderStop (List (List Nat)) :=
  match o with
  | .fail => .error .openError
  | .ok d =>
    if d.page_count > MAX_PAGE_COUNT then
      .error (.tooManyPages d.page_count)
    else
      .ok ((List.range (min d.page_count MAX_PAGE_COUNT)).map d.pix)

/-- `convert_pdf_to_images` (src/main.py lines 95-118).  Its only handler is
`except Exception`, which catches fitz failures and also the
HTTPException(400) raised by the page-count guard, replacing either with a
500 response. -/
def convert_pdf_to_images (o : OpenOutcome) : Except HTTPErr (List (List Nat)) :=
  match convert_try o with
  | .ok l => .ok l
  | .error _ => .error ⟨500, "Error converting PDF to images."⟩

/-- The environment of one `upload_image_to_azure_blob` call: the container
name from the environment, the outcome of `create_container` (`none` for
success, `some reason` when it raised), whether `upload_blob` succeeds, the
AccountName/AccountKey values found by parsing the connection string, the
account blob endpoint used by `blob_client.url`, and the SAS token minted by
`generate_blob_sas` for a blob name. -/
structure UploadEnv where
  endpoint : String
  container_name : Option String
  create_result : Option String
  upload_ok : Bool
  account_name : Option String
  account_key : Option String
  gen_sas : String → String

/-- The inner `try: await container_client.create_container() except Exception`
of src/main.py lines 130-133: every creation failure, whatever its reason, is
caught, logged at info level, and discarded. -/
def createContainerGuarded : Option String → Unit
  | none => ()
  | some _ => ()

/-- `blob_client.url` followed by `?` and the SAS token
(src/main.py line 168). -/
def signed_url (env : UploadEnv) (container_name filename : String) : String :=
  env.endpoint ++ "/" ++ container_name ++ "/" ++ filename ++ "?" ++ env.gen_sas filename

/-- The try block of `upload_image_to_azure_blob` (src/main.py lines 122-169):
require the container name, run the guarded container creation (its outcome is
never consulted), upload the blob, require AccountName and AccountKey from the
parsed connection string, mint the SAS token and build the signed URL.
`.error ()` stands for an ordinary Exception raised inside the block. -/
def upload_try (env : UploadEnv) (_image_bytes : List Nat) (filename : String) : Except Unit String :=
  match env.container_name with
  | none => .error ()
  | some container_name =>
    let _created : Unit := createContainerGuarded env.create_result
    if env.upload_ok then
      match env.account_name, env.account_key with
      | some _, some _ => .ok (signed_url env container_name filename)
      | _, _ => .error ()
    else
      .error ()

/-- `upload_image_to_azure_blob` (src/main.py lines 121-172) with its
`except Exception` handler: any failure in the try block becomes a 500
response with a fixed detail. -/
def upload_image_to_azure_blob (env : UploadEnv) (image_bytes : List Nat) (filename : String) :
    Except HTTPErr String :=
  match upload_try env image_bytes filename with
  | .ok u => .ok u
  | .error _ => .error ⟨500, "Error uploading images."⟩

/-- The fan-out/fan-in of src/main.py lines 181-185: one upload task per image,
built by `enumerate` with filename `page{idx+1}.png`, awaited by
`asyncio.gather`, whose results are positional (task order); a raised
exception propagates (modelled as the first error by index). -/
def gatherFrom (env : UploadEnv) (idx : Nat) : List (List Nat) → Except HTTPErr (List String)
  | [] => .ok []
  | b :: rest =>
    match upload_image_to_azure_blob env b ("page" ++ toString (idx + 1) ++ ".png") with
    | .error e => .error e
    | .ok u =>
      match gatherFrom env (idx + 1) rest with
      | .error e => .error e
      | .ok us => .ok (u :: us)

/-- The `POST /convert-pdf` handler `convert_pdf` (src/main.py lines 175-190).
It has no try block of its own, so any HTTPException from a stage propagates
to FastAPI and becomes the response.  `.ok urls` models the 200 response
`{"images": urls}`; `.error e` models the `{"detail": e.detail}` response with
status `e.status_code`.  `openPdf` abstracts `fitz.open` on the downloaded
bytes. -/
def convert_pdf (f : FetchOutcome) (openPdf : List Nat → OpenOutcome) (env : UploadEnv) :
    Except HTTPErr (List String) :=
  match download_pdf f with
  | .error e => .error e
  | .ok pdf_bytes =>
    match convert_pdf_to_images (openPdf pdf_bytes) with
    | .error e => .error e
    | .ok image_bytes_list =>
      match gatherFrom env 0 image_bytes_list with
      | .error e => .error e
      | .ok image_urls =>
        if image_urls.isEmpty then
          .error ⟨500, "No images were generated."⟩
        else
          .ok image_urls

/- ## Helper lemmas -/

theorem string_toList_append (a b : String) : (a ++ b).toList = a.toList ++ b.toList := by
  cases a; cases b; rfl

theorem toList_lowerStr (s : String) : (lowerStr s).toList = s.toList.map Char.toLower := rfl

theorem startsWithL_self_append (p t : List Char) : startsWithL p (p ++ t) = true := by
  induction p with
  | nil => rfl
  | cons a p ih => simp [startsWithL, ih]

theorem hasSubL_self_append (p t : List Char) : hasSubL p (p ++ t) = true := by
  cases p with
  | nil =>
    cases t with
    | nil => rfl
    | cons x t => simp [hasSubL, startsWithL]
  | cons a p => simp [hasSubL, startsWithL, startsWithL_self_append]

theorem hasSubL_append_right (p a c : List Char) (h : hasSubL p c = true) :
    hasSubL p (a ++ c) = true := by
  induction a with
  | nil => simpa using h
  | cons x a ih => simp [hasSubL, ih]

theorem hasSub_contains_lower (pre mid post : String) (h : lowerStr mid = "pdf") :
    hasSub "pdf" (lowerStr (pre ++ mid ++ post)) = true := by
  have hmid : mid.toList.map Char.toLower = "pdf".toList := by
    have h2 := congrArg String.toList h
    rw [toList_lowerStr] at h2
    exact h2
  show hasSubL "pdf".toList (lowerStr (pre ++ mid ++ post)).toList = true
  rw [toList_lowerStr, string_toList_append, string_toList_append,
    List.map_append, List.map_append, hmid, List.append_assoc]
  exact hasSubL_append_right _ _ _ (hasSubL_self_append _ _)

theorem getD_map_range {α : Type} (dflt : α) (n : Nat) :
    ∀ (g : Nat → α) (i : Nat), i < n → ((List.range n).map g).getD i dflt = g i := by
  induction n with
  | zero => intro g i h; exact absurd h (Nat.not_lt_zero i)
  | succ n ih =>
    intro g i h
    rw [List.range_succ_eq_map]
    cases i with
    | zero => rfl
    | succ i =>
      simp only [List.map_cons, List.map_map, List.getD_cons_succ]
      exact ih (g ∘ Nat.succ) i (Nat.lt_of_succ_lt_succ h)

theorem upload_ok_eval (env : UploadEnv) (b : List Nat) (fn cname : String)
    (hc : env.container_name = some cname) (hu : env.upload_ok = true)
    (han : env.account_name.isSome = true) (hak : env.account_key.isSome = true) :
    upload_image_to_azure_blob env b fn = .ok (signed_url env cname fn) := by
  obtain ⟨an, han2⟩ := Option.isSome_iff_exists.mp han
  obtain ⟨ak, hak2⟩ := Option.isSome_iff_exists.mp hak
  simp [upload_image_to_azure_blob, upload_try, hc, hu, han2, hak2]

theorem gatherFrom_ok (env : UploadEnv) (cname : String)
    (hc : env.container_name = some cname) (hu : env.upload_ok = true)
    (han : env.account_name.isSome = true) (hak : env.account_key.isSome = true) :
    ∀ (images : List (List Nat)) (idx : Nat),
      ∃ urls, gatherFrom env idx images = .ok urls ∧ urls.length = images.length ∧
        ∀ i, i < urls.length →
          urls.getD i "" = signed_url env cname ("page" ++ toString (idx + i + 1) ++ ".png") := by
  intro images
  induction images with
  | nil =>
    intro idx
    exact ⟨[], rfl, rfl, fun i h => absurd h (Nat.not_lt_zero i)⟩
  | cons b rest ih =>
    intro idx
    obtain ⟨us, hg, hlen, hidx⟩ := ih (idx + 1)
    have hu1 := upload_ok_eval env b ("page" ++ toString (idx + 1) ++ ".png") cname hc hu han hak
    refine ⟨signed_url env cname ("page" ++ toString (idx + 1) ++ ".png") :: us, ?_, ?_, ?_⟩
    · simp [gatherFrom, hu1, hg]
    · simp [hlen]
    · intro i hi
      cases i with
      | zero => rfl
      | succ i =>
        rw [List.getD_cons_succ]
        have h2 := hidx i (by simpa using hi)
        have e : idx + 1 + i + 1 = idx + (i + 1) + 1 := by omega
        rw [e] at h2
        exact h2

/- ## Claim theorems -/

/-- Claim C1 (code_bug evidence).  When the remote GET returns HTTP 404, the
try block of download_pdf does raise the HTTPException with status 400 and
detail "Failed to download PDF. Status code: 404" exactly as the claim states
(first two conjuncts), but that exception is caught by the same function's
`except Exception` clause, so the /convert-pdf endpoint actually answers
500 with detail "Unexpected error occurred." (third conjunct), for every
content type, body, document and upload environment. -/
theorem c1_http404_maps_to_500 (ct : Option String) (body : List Nat)
    (openPdf : List Nat → OpenOutcome) (env : UploadEnv) :
    download_try (.ok ⟨404, ct, body⟩) = .error (.raised (.badStatus 404)) ∧
    dlExc (.badStatus 404) = ⟨400, "Failed to download PDF. Status code: 404"⟩ ∧
    convert_pdf (.ok ⟨404, ct, body⟩) openPdf env = .error ⟨500, "Unexpected error occurred."⟩ :=
  ⟨rfl, rfl, rfl⟩

/-- Claim C2 (code_bug evidence).  For any document whose page count exceeds
3000, the try block of convert_pdf_to_images stops with the page-count raise
before consulting the rasterizer at all (the first conjunct holds for every
`pix`), and the raise site builds an HTTPException with status 400 (second
conjunct); but convert_pdf_to_images catches its own HTTPException with
`except Exception` and the client-facing error is 500
"Error converting PDF to images." (third conjunct), not 400. -/
theorem c2_too_many_pages (d : PdfDoc) (h : d.page_count > 3000) :
    convert_try (.ok d) = .error (.tooManyPages d.page_count) ∧
    (renderExc d.page_count).status_code = 400 ∧
    convert_pdf_to_images (.ok d) = .error ⟨500, "Error converting PDF to images."⟩ := by
  have hc : convert_try (.ok d) = .error (.tooManyPages d.page_count) := by
    simp only [convert_try, MAX_PAGE_COUNT]
    rw [if_pos (show d.page_count > 3000 from h)]
  refine ⟨hc, rfl, ?_⟩
  simp only [convert_pdf_to_images, hc]

/-- Witness for C2 at a concrete 3001-page document; also records the full
HTTPException text built at the raise site. -/
theorem c2_too_many_pages_witness :
    (PdfDoc.mk 3001 (fun _ => [])).page_count > 3000 ∧
    convert_pdf_to_images (.ok (PdfDoc.mk 3001 (fun _ => []))) =
      .error ⟨500, "Error converting PDF to images."⟩ ∧
    renderExc 3001 = ⟨400, "PDF has too many pages (3001). Maximum allowed is 3000."⟩ :=
  ⟨by decide, (c2_too_many_pages (PdfDoc.mk 3001 (fun _ => [])) (by decide)).2.2, rfl⟩

/-- Claim C3 (code_bug evidence).  For a response with Content-Type text/html
the try block of download_pdf raises the HTTPException with status 400 whose
detail names the content type (first two conjuncts), and no render or upload
is performed (the endpoint result below is the same for every `openPdf` and
`env`); but the exception is caught by the download function's own
`except Exception` clause, so the endpoint actually answers 500 with detail
"Unexpected error occurred.", which does not mention the content type. -/
theorem c3_html_maps_to_500 (body : List Nat)
    (openPdf : List Nat → OpenOutcome) (env : UploadEnv) :
    download_try (.ok ⟨200, some "text/html", body⟩) =
      .error (.raised (.badContentType "text/html")) ∧
    dlExc (.badContentType "text/html") =
      ⟨400, "URL does not point to a PDF file. Content-Type: text/html"⟩ ∧
    convert_pdf (.ok ⟨200, some "text/html", body⟩) openPdf env =
      .error ⟨500, "Unexpected error occurred."⟩ :=
  ⟨rfl, rfl, rfl⟩

/-- Counterexample to claim C4 as stated: 201 is a 2xx success status, yet the
download try block fails with the status-code raise, because the code compares
against exactly 200, not against the 2xx class. -/
theorem c4_counterexample :
    200 ≤ 201 ∧ 201 < 300 ∧
    download_try (.ok ⟨201, some "application/pdf", []⟩) =
      .error (.raised (.badStatus 201)) :=
  ⟨by decide, by decide, rfl⟩

/-- Claim C4 (amended): the download try block fails with the status-code
raise (the RemoteFetchError site) exactly when the response status differs
from 200 - not merely when it is outside the 2xx class. -/
theorem c4_status_check_amended (r : Response) :
    (download_try (.ok r) = .error (.raised (.badStatus r.status))) ↔ r.status ≠ 200 := by
  simp only [download_try]
  by_cases h : r.status = 200
  · rw [if_neg (by simp [h])]
    simp only [h, ne_eq, not_true_eq_false, iff_false]
    intro he
    split at he
    · simp at he
    · split at he
      · simp at he
      · simp at he
  · rw [if_pos h]
    simp [h]

/-- Witness for C4's amended theorem at status 404. -/
theorem c4_status_check_amended_witness :
    download_try (.ok ⟨404, some "application/pdf", []⟩) =
      .error (.raised (.badStatus 404)) :=
  (c4_status_check_amended ⟨404, some "application/pdf", []⟩).mpr (by decide)

/-- Claim C5 (confirmed).  For every document the renderer can open whose page
count is at most 3000 (and whose pages all rasterize, which is what the total
`pix` field of `PdfDoc` expresses), convert_pdf_to_images returns exactly
page_count image buffers, the i-th being the rasterization of page i. -/
theorem c5_render_page_order (d : PdfDoc) (h : d.page_count ≤ 3000) :
    ∃ imgs, convert_pdf_to_images (.ok d) = .ok imgs ∧ imgs.length = d.page_count ∧
      ∀ i, i < d.page_count → imgs.getD i [] = d.pix i := by
  refine ⟨(List.range d.page_count).map d.pix, ?_, by simp, ?_⟩
  · simp only [convert_pdf_to_images, convert_try, MAX_PAGE_COUNT]
    rw [if_neg (show ¬ d.page_count > 3000 by omega), Nat.min_eq_left h]
  · intro i hi
    exact getD_map_range [] d.page_count d.pix i hi

/-- Witness for C5 at a concrete two-page document. -/
theorem c5_render_page_order_witness :
    (PdfDoc.mk 2 (fun i => [i])).page_count ≤ 3000 ∧
    ∃ imgs, convert_pdf_to_images (.ok (PdfDoc.mk 2 (fun i => [i]))) = .ok imgs ∧
      imgs.length = 2 ∧ ∀ i, i < 2 → imgs.getD i [] = [i] :=
  ⟨by decide, c5_render_page_order (PdfDoc.mk 2 (fun i => [i])) (by decide)⟩

/-- Claim C6 (confirmed).  For every successful conversion (download ok,
document opened with 1 to 3000 pages, every upload succeeding), the endpoint
returns one URL per page, positionally in page order - asyncio.gather returns
results in task order regardless of completion order - and the i-th URL
(0-based) is the signed URL of the blob named page(i+1).png. -/
theorem c6_upload_page_order (f : FetchOutcome) (openPdf : List Nat → OpenOutcome)
    (env : UploadEnv) (b : List Nat) (d : PdfDoc) (cname : String)
    (hdl : download_pdf f = .ok b) (hopen : openPdf b = .ok d)
    (hpos : 0 < d.page_count) (hmax : d.page_count ≤ 3000)
    (hc : env.container_name = some cname) (hu : env.upload_ok = true)
    (han : env.account_name.isSome = true) (hak : env.account_key.isSome = true) :
    ∃ urls, convert_pdf f openPdf env = .ok urls ∧ urls.length = d.page_count ∧
      ∀ i, i < urls.length →
        urls.getD i "" = signed_url env cname ("page" ++ toString (i + 1) ++ ".png") := by
  have hconv : convert_pdf_to_images (openPdf b) = .ok ((List.range d.page_count).map d.pix) := by
    rw [hopen]
    simp only [convert_pdf_to_images, convert_try, MAX_PAGE_COUNT]
    rw [if_neg (show ¬ d.page_count > 3000 by omega), Nat.min_eq_left hmax]
  obtain ⟨urls, hg, hlen, hidx⟩ :=
    gatherFrom_ok env cname hc hu han hak ((List.range d.page_count).map d.pix) 0
  have hlen2 : urls.length = d.page_count := by
    rw [hlen]; simp
  have hne : urls.isEmpty = false := by
    cases urls with
    | nil => simp at hlen2; omega
    | cons u us => rfl
  refine ⟨urls, ?_, hlen2, ?_⟩
  · simp only [convert_pdf, hdl, hconv, hg, hne]
    simp
  · intro i hi
    have h2 := hidx i hi
    rw [Nat.zero_add] at h2
    exact h2

/-- Witness for C6: a two-page document with a fully working upload
environment yields exactly the URLs of page1.png and page2.png, in order. -/
theorem c6_upload_page_order_witness :
    download_pdf (.ok ⟨200, some "application/pdf", [7]⟩) = .ok [7] ∧
    (fun _ => OpenOutcome.ok (PdfDoc.mk 2 (fun i => [i]))) ([7] : List Nat) =
      .ok (PdfDoc.mk 2 (fun i => [i])) ∧
    ∃ urls,
      convert_pdf (.ok ⟨200, some "application/pdf", [7]⟩)
          (fun _ => OpenOutcome.ok (PdfDoc.mk 2 (fun i => [i])))
          (UploadEnv.mk "https://acct.blob.core.windows.net" (some "images") none true
            (some "acct") (some "key") (fun _ => "sas")) = .ok urls ∧
      urls.length = 2 ∧
      ∀ i, i < urls.length →
        urls.getD i "" =
          signed_url
            (UploadEnv.mk "https://acct.blob.core.windows.net" (some "images") none true
              (some "acct") (some "key") (fun _ => "sas"))
            "images" ("page" ++ toString (i + 1) ++ ".png") :=
  ⟨rfl, rfl,
    c6_upload_page_order (.ok ⟨200, some "application/pdf", [7]⟩)
      (fun _ => OpenOutcome.ok (PdfDoc.mk 2 (fun i => [i])))
      (UploadEnv.mk "https://acct.blob.core.windows.net" (some "images") none true
        (some "acct") (some "key") (fun _ => "sas"))
      [7] (PdfDoc.mk 2 (fun i => [i])) "images"
      rfl rfl (by decide) (by decide) rfl rfl rfl rfl⟩

/-- Claim C7 (confirmed at the raise-site level).  With an acceptable status
and content type, the size guard - which runs only after the whole body has
been read, since it tests the length of the fully buffered bytes - raises the
PayloadTooLarge HTTPException exactly when the byte count exceeds the
104857600-byte (100 MiB) ceiling, and a body of exactly 100 MiB is accepted.
(The raise itself is then re-wrapped to a generic 500 by the download
function's catch-all handler; the claim does not speak about the outward
status.) -/
theorem c7_payload_too_large (r : Response) (h200 : r.status = 200)
    (hct : hasSub "pdf" (lowerStr (r.contentType.getD "")) = true) :
    MAX_PDF_SIZE = 104857600 ∧
    (download_try (.ok r) = .error (.raised .tooLarge) ↔ r.body.length > MAX_PDF_SIZE) ∧
    (r.body.length = MAX_PDF_SIZE → download_try (.ok r) = .ok r.body) ∧
    dlExc .tooLarge = ⟨400, "PDF file is too large."⟩ := by
  have hd : download_try (.ok r) =
      if r.body.length > MAX_PDF_SIZE then .error (.raised .tooLarge) else .ok r.body := by
    simp only [download_try]
    rw [if_neg (by simp [h200]), if_neg (by simp [hct])]
  refine ⟨rfl, ?_, ?_, rfl⟩
  · rw [hd]
    constructor
    · intro he
      by_contra hn
      rw [if_neg hn] at he
      simp at he
    · intro hgt
      rw [if_pos hgt]
  · intro heq
    rw [hd, if_neg (by rw [heq]; exact Nat.lt_irrefl _)]

/-- Witness for C7: a body of 104857601 bytes is rejected by the size guard
and a body of exactly 104857600 bytes is accepted. -/
theorem c7_payload_too_large_witness :
    (List.replicate 104857601 (0 : Nat)).length > MAX_PDF_SIZE ∧
    download_try (.ok ⟨200, some "application/pdf", List.replicate 104857601 0⟩) =
      .error (.raised .tooLarge) ∧
    download_try (.ok ⟨200, some "application/pdf", List.replicate 104857600 0⟩) =
      .ok (List.replicate 104857600 0) := by
  refine ⟨by norm_num [MAX_PDF_SIZE, List.length_replicate], ?_, ?_⟩
  · exact (c7_payload_too_large ⟨200, some "application/pdf", List.replicate 104857601 0⟩
      rfl (by decide)).2.1.mpr (by norm_num [MAX_PDF_SIZE, List.length_replicate])
  · exact (c7_payload_too_large ⟨200, some "application/pdf", List.replicate 104857600 0⟩
      rfl (by decide)).2.2.1 (by norm_num [MAX_PDF_SIZE, List.length_replicate])

/-- Counterexample to claim C8 as stated: a container-creation failure whose
reason is not "already exists" (here "network unavailable") does NOT make the
upload fail - the inner try/except of upload_image_to_azure_blob swallows
every creation failure and the upload returns its signed URL. -/
theorem c8_counterexample :
    (UploadEnv.mk "https://acct.blob.core.windows.net" (some "images")
        (some "network unavailable") true (some "acct") (some "key")
        (fun _ => "sas")).create_result = some "network unavailable" ∧
    "network unavailable" ≠ "already exists" ∧
    upload_image_to_azure_blob
        (UploadEnv.mk "https://acct.blob.core.windows.net" (some "images")
          (some "network unavailable") true (some "acct") (some "key")
          (fun _ => "sas")) [] "page1.png" =
      .ok "https://acct.blob.core.windows.net/images/page1.png?sas" :=
  ⟨rfl, by decide, rfl⟩

/-- Claim C8 (amended): container-already-exists is treated as success, but so
is every other container-creation failure - the upload result never depends on
the creation outcome (first conjunct); and a container-client setup failure
such as a missing container name makes the upload fail, but with the generic
500 "Error uploading images." response rather than a distinct
StorageUnavailable error (second conjunct). -/
theorem c8_container_creation_amended (env : UploadEnv) (b : List Nat) (fn : String) :
    upload_image_to_azure_blob env b fn =
      upload_image_to_azure_blob { env with create_result := none } b fn ∧
    upload_image_to_azure_blob { env with container_name := none } b fn =
      .error ⟨500, "Error uploading images."⟩ :=
  ⟨rfl, rfl⟩

/-- Claim C9 (confirmed).  When the pipeline collects zero uploaded URLs -
here because the opened document has zero pages, so the renderer returns zero
buffers and gather returns zero URLs - the endpoint does not answer with an
empty images list but fails with the 500 "No images were generated."
response. -/
theorem c9_empty_result (f : FetchOutcome) (openPdf : List Nat → OpenOutcome)
    (env : UploadEnv) (b : List Nat) (d : PdfDoc)
    (hdl : download_pdf f = .ok b) (hopen : openPdf b = .ok d)
    (h0 : d.page_count = 0) :
    convert_pdf f openPdf env = .error ⟨500, "No images were generated."⟩ := by
  have hconv : convert_pdf_to_images (openPdf b) = .ok [] := by
    rw [hopen]
    simp only [convert_pdf_to_images, convert_try, MAX_PAGE_COUNT, h0]
    rfl
  simp only [convert_pdf, hdl, hconv]
  rfl

/-- Witness for C9 at a concrete zero-page document. -/
theorem c9_empty_result_witness :
    download_pdf (.ok ⟨200, some "application/pdf", []⟩) = .ok [] ∧
    (PdfDoc.mk 0 (fun _ => [])).page_count = 0 ∧
    convert_pdf (.ok ⟨200, some "application/pdf", []⟩)
        (fun _ => OpenOutcome.ok (PdfDoc.mk 0 (fun _ => [])))
        (UploadEnv.mk "e" (some "c") none true (some "a") (some "k") (fun _ => "s")) =
      .error ⟨500, "No images were generated."⟩ :=
  ⟨rfl, rfl,
    c9_empty_result (.ok ⟨200, some "application/pdf", []⟩)
      (fun _ => OpenOutcome.ok (PdfDoc.mk 0 (fun _ => [])))
      (UploadEnv.mk "e" (some "c") none true (some "a") (some "k") (fun _ => "s"))
      [] (PdfDoc.mk 0 (fun _ => [])) rfl rfl rfl⟩

/-- Claim C10 (confirmed).  The content-type gate is the case-insensitive
substring test `'pdf' in content_type.lower()`: any header containing "pdf"
in any letter case at any position passes it (first conjunct, with the
claim's examples application/x-pdf and text/pdf-like as closed instances),
and a missing Content-Type header is defaulted to the empty string and
rejected by the same raise site (second conjunct). -/
theorem c10_content_type_substring :
    (∀ (pre mid post : String) (body : List Nat),
      lowerStr mid = "pdf" → body.length ≤ MAX_PDF_SIZE →
      download_try (.ok ⟨200, some (pre ++ mid ++ post), body⟩) = .ok body) ∧
    (∀ body : List Nat,
      download_try (.ok ⟨200, none, body⟩) = .error (.raised (.badContentType ""))) ∧
    download_try (.ok ⟨200, some "application/x-pdf", []⟩) = .ok [] ∧
    download_try (.ok ⟨200, some "text/pdf-like", []⟩) = .ok [] ∧
    download_try (.ok ⟨200, some "Application/PDF", []⟩) = .ok [] := by
  refine ⟨?_, fun body => rfl, rfl, rfl, rfl⟩
  intro pre mid post body hmid hlen
  have hs := hasSub_contains_lower pre mid post hmid
  simp only [download_try]
  rw [if_neg (by simp), if_neg (by simp [hs]), if_neg (show ¬ body.length > MAX_PDF_SIZE by omega)]

/-- Witness for C10: the mixed-case header built as
"application/x-" ++ "PDF" ++ "" is accepted, and a missing header is
rejected. -/
theorem c10_content_type_substring_witness :
    lowerStr "PDF" = "pdf" ∧
    ([] : List Nat).length ≤ MAX_PDF_SIZE ∧
    download_try (.ok ⟨200, some ("application/x-" ++ "PDF" ++ ""), []⟩) = .ok [] ∧
    download_try (.ok ⟨200, none, []⟩) = .error (.raised (.badContentType "")) :=
  ⟨by decide, by decide,
    c10_content_type_substring.1 "application/x-" "PDF" "" [] (by decide) (by decide),
    c10_content_type_substring.2.1 []⟩
